import Mathlib

/-!
Verification of the SmartPromptDecomposition core (src/app.py).

The embedding models the three core functions of the source:
`get_ai_response`, `ai_prompt_decomposition` and `process_prompt_chain`.
The external collaborators are parameters:
  * the litellm `completion` call is a `Gateway` argument
    (model, prompt, max_tokens) returning either a reply text or an error
    (a Python exception is `Except.error`);
  * Python's `json.loads` is a `parse` argument returning `Option JsonVal`
    (`none` models a raised `JSONDecodeError`).
Python dynamic values coming out of `json.loads` are modelled by `JsonVal`.
-/

/-- A Python value as produced by `json.loads`. -/
inductive JsonVal where
  | str (s : String)
  | num (n : Int)
  | bool (b : Bool)
  | null
  | arr (xs : List JsonVal)
  | obj (fields : List (String × JsonVal))

/-- The external model backend: arguments are model name, prompt text and
`max_tokens`; a raised exception is `Except.error`. -/
abbrev Gateway := String → String → Nat → Except String String

/-- Embeds `get_ai_response` (src/app.py lines 15-25).  The Python default
argument `model = "gpt-4o-mini"` is supplied explicitly by callers below,
exactly as Python fills it in. -/
def getAiResponse (g : Gateway) (prompt : String) (model : String) : String :=
  match g model prompt 500 with
  | Except.ok content => content
  | Except.error e => "Error: " ++ e

/-- Embeds the `decomposition_prompt` f-string (src/app.py lines 29-41),
whitespace included. -/
def decompositionPrompt (complexPrompt : String) : String :=
  "\n    Break down this complex query into smaller, logically connected sub-queries. Consider:\n    1. Dependencies between questions\n    2. Context needed for each sub-query\n    3. Logical flow of information\n    \n    Complex query: \"" ++ complexPrompt ++ "\"\n    \n    Return ONLY a JSON array of strings, where each string is a sub-query. Format:\n    [\"sub-query 1\", \"sub-query 2\", ...]\n    \n    The sub-queries should build upon each other naturally and maintain context.\n    "

/-- Index of the first occurrence of `c`, as Python `str.find` (with `none`
for Python's `-1`). -/
def charFindIdx (c : Char) : List Char → Option Nat
  | [] => none
  | x :: xs => if x = c then some 0 else (charFindIdx c xs).map (· + 1)

/-- Index of the last occurrence of `c`, as Python `str.rfind` (with `none`
for Python's `-1`). -/
def charRfindIdx (c : Char) : List Char → Option Nat
  | [] => none
  | x :: xs =>
    match charRfindIdx c xs with
    | some j => some (j + 1)
    | none => if x = c then some 0 else none

def strFind (s : String) (c : Char) : Option Nat :=
  charFindIdx c s.data

def strRfind (s : String) (c : Char) : Option Nat :=
  charRfindIdx c s.data

/-- Python slice `s[i:j]` for `0 ≤ i, j` (the only case the source reaches). -/
def strSlice (s : String) (i j : Nat) : String :=
  String.mk ((s.data.drop i).take (j - i))

/-- Embeds src/app.py lines 53-56: `start_idx = response_text.find('[')`,
`end_idx = response_text.rfind(']') + 1`, the guard `start_idx != -1 and
end_idx != -1` (the second conjunct is always true since `rfind + 1 ≥ 0`),
and the slice `response_text[start_idx:end_idx]`. -/
def extractBracket (text : String) : Option String :=
  match strFind text '[' with
  | none => none
  | some startIdx =>
    let endIdx : Nat :=
      match strRfind text ']' with
      | some j => j + 1
      | none => 0
    some (strSlice text startIdx endIdx)

/-- Embeds `ai_prompt_decomposition` (src/app.py lines 27-62).  A gateway
error or a failing `parse` lands in the `except` clause, which shows a
non-fatal `st.error` diagnostic (I/O, not modelled) and returns
`[complex_prompt]`; a missing `[` returns `[complex_prompt]` from line 59;
a parsed value that is a list is returned as is (line 58), and a parsed
non-list yields the empty list (the `else []` of line 58). -/
def aiPromptDecomposition (g : Gateway) (parse : String → Option JsonVal)
    (complexPrompt : String) : List JsonVal :=
  match g "gpt-4o-mini" (decompositionPrompt complexPrompt) 500 with
  | Except.error _ => [JsonVal.str complexPrompt]
  | Except.ok responseText =>
    match extractBracket responseText with
    | none => [JsonVal.str complexPrompt]
    | some jsonStr =>
      match parse jsonStr with
      | none => [JsonVal.str complexPrompt]
      | some (JsonVal.arr xs) => xs
      | some _ => []

/-- Embeds the context update `context += f"\nQ: {prompt}\nA: {response}\n"`
(src/app.py line 86). -/
def pairRender (prompt response : String) : String :=
  "\nQ: " ++ (prompt ++ ("\nA: " ++ (response ++ "\n")))

/-- Embeds the `context_prompt` f-string for a non-empty context
(src/app.py lines 72-78), whitespace included. -/
def wrapTemplate (context prompt : String) : String :=
  "\n            Given this context from previous responses: \n            " ++
    (context ++
      ("\n            \n            Please address this follow-up question while considering the above context:\n            " ++
        (prompt ++ "\n            ")))

/-- Embeds the `if context:` branch (src/app.py lines 71-80): an empty
string is falsy, so the sub-query passes through unchanged. -/
def wrap (context prompt : String) : String :=
  if context = "" then prompt else wrapTemplate context prompt

/-- The loop body of `process_prompt_chain` (src/app.py lines 69-86),
parameterised by the accumulated `context`. -/
def runFrom (g : Gateway) (ctx : String) : List String → List (String × String)
  | [] => []
  | prompt :: rest =>
    let contextPrompt := wrap ctx prompt
    let response := getAiResponse g contextPrompt "gpt-4o-mini"
    (prompt, response) :: runFrom g (ctx ++ pairRender prompt response) rest

/-- Embeds `process_prompt_chain` (src/app.py lines 64-88): `context`
starts empty, and `get_ai_response` is called with its Python default model
`"gpt-4o-mini"` because line 82 passes no `model` argument. -/
def processPromptChain (g : Gateway) (prompts : List String) : List (String × String) :=
  runFrom g "" prompts

/-- The value of the `context` variable after the loop has consumed the
given prompts, starting from `ctx`. -/
def ctxFrom (g : Gateway) (ctx : String) : List String → String
  | [] => ctx
  | prompt :: rest =>
    let response := getAiResponse g (wrap ctx prompt) "gpt-4o-mini"
    ctxFrom g (ctx ++ pairRender prompt response) rest

/-- The `context` visible when the loop builds the prompt of step `i`
(0-indexed). -/
def contextAtStep (g : Gateway) (prompts : List String) (i : Nat) : String :=
  ctxFrom g "" (prompts.take i)

/-- The `context_prompt` actually sent to the backend at step `i`. -/
def stepPrompt (g : Gateway) (prompts : List String) (i : Nat) : String :=
  wrap (contextAtStep g prompts i) (prompts.getD i "")

/-- Modelled from the spec: the ChainExecutor contract
`run(subQueries, model)` of spec sections 4.3 and 6, whose step 2 says each
step calls the ModelGateway "with the wrapped prompt and the configured
model".  Identical to `runFrom` except that the configured model is passed
to every call. -/
def runFromSpec (g : Gateway) (model : String) (ctx : String) :
    List String → List (String × String)
  | [] => []
  | prompt :: rest =>
    let response := getAiResponse g (wrap ctx prompt) model
    (prompt, response) :: runFromSpec g model (ctx ++ pairRender prompt response) rest

/-- Modelled from the spec: `ChainExecutor.run` with a configured model. -/
def processPromptChainSpec (g : Gateway) (model : String) (prompts : List String) :
    List (String × String) :=
  runFromSpec g model "" prompts

/-- Modelled from the spec: `render(log)` of spec section 4.2, the
concatenation of `"Q: {subQuery}\nA: {response}\n"` for each record. -/
def renderSpec (log : List (String × String)) : String :=
  String.join (log.map fun r => "Q: " ++ (r.1 ++ ("\nA: " ++ (r.2 ++ "\n"))))

/-- `needle` occurs contiguously inside `hay`. -/
def strHasSub (hay needle : String) : Prop :=
  ∃ a b : String, hay = a ++ (needle ++ b)

/-- Concatenation of a list of strings, in order. -/
def strConcat : List String → String
  | [] => ""
  | s :: rest => s ++ strConcat rest

theorem strAppend_assoc (a b c : String) : (a ++ b) ++ c = a ++ (b ++ c) := by
  apply String.ext
  simp [String.data_append]

theorem runFrom_map_fst (g : Gateway) (ps : List String) :
    ∀ ctx, (runFrom g ctx ps).map Prod.fst = ps := by
  induction ps with
  | nil => intro ctx; rfl
  | cons p rest ih => intro ctx; simp [runFrom, ih]

theorem runFrom_eq_spec_default (g : Gateway) (ps : List String) :
    ∀ ctx, runFrom g ctx ps = runFromSpec g "gpt-4o-mini" ctx ps := by
  induction ps with
  | nil => intro ctx; rfl
  | cons p rest ih => intro ctx; simp [runFrom, runFromSpec, ih]

theorem runFrom_gateway_congr (g₁ g₂ : Gateway) (h : ∀ m p t, g₁ m p t = g₂ m p t)
    (ps : List String) : ∀ ctx, runFrom g₁ ctx ps = runFrom g₂ ctx ps := by
  have hr : ∀ p m, getAiResponse g₁ p m = getAiResponse g₂ p m := by
    intro p m
    unfold getAiResponse
    rw [h]
  induction ps with
  | nil => intro ctx; rfl
  | cons p rest ih => intro ctx; simp [runFrom, hr, ih]

theorem ctxFrom_eq_join (g : Gateway) (ps : List String) :
    ∀ ctx, ctxFrom g ctx ps =
      ctx ++ strConcat ((runFrom g ctx ps).map fun r => pairRender r.1 r.2) := by
  induction ps with
  | nil => intro ctx; simp [ctxFrom, runFrom, strConcat, String.append_empty]
  | cons p rest ih =>
    intro ctx
    simp [ctxFrom, runFrom, strConcat, ih, strAppend_assoc]

theorem runFrom_take (g : Gateway) (ps : List String) :
    ∀ ctx i, (runFrom g ctx ps).take i = runFrom g ctx (ps.take i) := by
  induction ps with
  | nil => intro ctx i; simp [runFrom]
  | cons p rest ih =>
    intro ctx i
    cases i with
    | zero => simp [runFrom]
    | succ n => simp [runFrom, List.take_succ_cons, ih]

theorem runFrom_getD (g : Gateway) (ps : List String) :
    ∀ ctx k, k < ps.length →
      (runFrom g ctx ps).getD k ("", "") =
        (ps.getD k "",
          getAiResponse g (wrap (ctxFrom g ctx (ps.take k)) (ps.getD k "")) "gpt-4o-mini") := by
  induction ps with
  | nil => intro ctx k hk; simp at hk
  | cons p rest ih =>
    intro ctx k hk
    cases k with
    | zero => simp [runFrom, ctxFrom]
    | succ n =>
      have hn : n < rest.length := by simpa using hk
      have ihh := ih (ctx ++ pairRender p (getAiResponse g (wrap ctx p) "gpt-4o-mini")) n hn
      simpa [runFrom, List.take_succ_cons, ctxFrom] using ihh

theorem ctxFrom_take_succ (g : Gateway) (ps : List String) :
    ∀ ctx k, k < ps.length →
      ctxFrom g ctx (ps.take (k + 1)) =
        ctxFrom g ctx (ps.take k) ++
          pairRender (ps.getD k "")
            (getAiResponse g (wrap (ctxFrom g ctx (ps.take k)) (ps.getD k "")) "gpt-4o-mini") := by
  induction ps with
  | nil => intro ctx k hk; simp at hk
  | cons p rest ih =>
    intro ctx k hk
    cases k with
    | zero => simp [ctxFrom]
    | succ n =>
      have hn : n < rest.length := by simpa using hk
      simp [List.take_succ_cons, ctxFrom, List.getD_cons_succ, ih _ n hn]

theorem pairRender_length (q a : String) :
    (pairRender q a).length = 4 + (q.length + (4 + (a.length + 1))) := by
  have h1 : ("\nQ: " : String).length = 4 := rfl
  have h2 : ("\nA: " : String).length = 4 := rfl
  have h3 : ("\n" : String).length = 1 := rfl
  simp [pairRender, String.length_append, h1, h2, h3]

theorem append_pairRender_ne_empty (ctx q a : String) : ctx ++ pairRender q a ≠ "" := by
  intro h
  have h2 := congrArg String.length h
  rw [String.length_append, pairRender_length] at h2
  simp at h2

/-- C7: `run` produces exactly one ExchangeRecord per sub-query, whose first
component is the sub-query itself (not the wrapped prompt), and output order
matches input order for every input list. -/
theorem chain_record_per_subquery (g : Gateway) (ps : List String) :
    (processPromptChain g ps).map Prod.fst = ps ∧
    (processPromptChain g ps).length = ps.length := by
  refine ⟨runFrom_map_fst g ps "", ?_⟩
  have h := congrArg List.length (runFrom_map_fst g ps "")
  simpa using h

/-- C10: with the ModelGateway modelled as a deterministic function, two runs
of the chain executor on the same sub-queries produce identical records: all
nondeterminism comes from the backend. -/
theorem chain_deterministic_in_gateway (g₁ g₂ : Gateway) (ps : List String)
    (h : ∀ m p t, g₁ m p t = g₂ m p t) :
    processPromptChain g₁ ps = processPromptChain g₂ ps :=
  runFrom_gateway_congr g₁ g₂ h ps ""

/-- A gateway answering `"x"` on every call. -/
def gwA : Gateway := fun _ _ _ => Except.ok "x"

/-- A pointwise-equal gateway written differently. -/
def gwB : Gateway := fun _ _ _ => Except.ok ("x" ++ "")

theorem chain_deterministic_in_gateway_witness :
    (∀ m p t, gwA m p t = gwB m p t) ∧
    processPromptChain gwA ["a", "b"] = processPromptChain gwB ["a", "b"] :=
  ⟨fun _ _ _ => rfl,
    chain_deterministic_in_gateway gwA gwB ["a", "b"] (fun _ _ _ => rfl)⟩

/-- A gateway whose reply is the model name it was called with. -/
def gwEcho : Gateway := fun model _ _ => Except.ok model

/-- C2 counterexample: the code's chain executor does not call the gateway
with the configured model — on a model-echoing gateway its records differ
from the spec executor run with the configured model `"custom-model"`. -/
theorem chain_ignores_configured_model :
    processPromptChain gwEcho ["q"] ≠ processPromptChainSpec gwEcho "custom-model" ["q"] := by
  decide

/-- C2 amended: each chain-execution step calls the ModelGateway with the
wrapped prompt and the fixed default model `"gpt-4o-mini"`;
`process_prompt_chain` takes no model parameter, so it coincides with the
spec's `run(subQueries, model)` only at `model = "gpt-4o-mini"`. -/
theorem chain_refines_spec_at_default_model (g : Gateway) (ps : List String) :
    processPromptChain g ps = processPromptChainSpec g "gpt-4o-mini" ps :=
  runFrom_eq_spec_default g ps ""

/-- C3: the context text used to build step `i`'s prompt is exactly the
concatenation of the rendered pairs of the records of steps `0..i-1`, in
step order (so it contains each of them exactly once and nothing from later
steps); step 0's context is empty; and the record of step `i` is the pair of
sub-query `i` and the response to the prompt built from that context. -/
theorem chain_context_visibility (g : Gateway) (ps : List String) (i : Nat) :
    contextAtStep g ps 0 = "" ∧
    contextAtStep g ps i =
      strConcat (((processPromptChain g ps).take i).map fun r => pairRender r.1 r.2) ∧
    (i < ps.length →
      (processPromptChain g ps).getD i ("", "") =
        (ps.getD i "", getAiResponse g (stepPrompt g ps i) "gpt-4o-mini")) := by
  refine ⟨rfl, ?_, ?_⟩
  · have h1 := ctxFrom_eq_join g (ps.take i) ""
    rw [← runFrom_take g ps "" i] at h1
    simpa [contextAtStep, processPromptChain, String.empty_append] using h1
  · intro hi
    exact runFrom_getD g ps "" i hi

theorem chain_context_visibility_witness :
    1 < (["a", "b"] : List String).length ∧
    (processPromptChain gwA ["a", "b"]).getD 1 ("", "") =
      (["a", "b"].getD 1 "", getAiResponse gwA (stepPrompt gwA ["a", "b"] 1) "gpt-4o-mini") :=
  ⟨by decide, (chain_context_visibility gwA ["a", "b"] 1).2.2 (by decide)⟩

/-- A gateway answering `"a"` on every call. -/
def gwConstA : Gateway := fun _ _ _ => Except.ok "a"

/-- C8 counterexample: after the step with record `("q", "a")`, the code's
accumulated context is `"\nQ: q\nA: a\n"`, not the spec's rendering
`"Q: q\nA: a\n"`: each rendered pair carries a leading newline. -/
theorem render_pair_format_cex :
    contextAtStep gwConstA ["q", "r"] 1 = "\nQ: q\nA: a\n" ∧
    contextAtStep gwConstA ["q", "r"] 1 ≠ renderSpec [("q", "a")] := by
  constructor
  · decide
  · decide

/-- C8 amended: the rendered context of an empty log is the empty string,
and the rendered context of a non-empty log is exactly the concatenation of
`"\nQ: {subQuery}\nA: {response}\n"` (leading newline included) for each
record in log order; wrapping with an empty context text returns the
sub-query unchanged, and wrapping with a non-empty context returns the
template embedding the context and the sub-query. -/
theorem render_and_wrap_amended (g : Gateway) (ps : List String) (i : Nat)
    (ctx p : String) (hc : ctx ≠ "") :
    contextAtStep g ps 0 = "" ∧
    contextAtStep g ps i =
      strConcat (((processPromptChain g ps).take i).map fun r =>
        "\nQ: " ++ (r.1 ++ ("\nA: " ++ (r.2 ++ "\n")))) ∧
    wrap "" p = p ∧
    wrap ctx p = wrapTemplate ctx p := by
  refine ⟨rfl, ?_, rfl, ?_⟩
  · have h1 := ctxFrom_eq_join g (ps.take i) ""
    rw [← runFrom_take g ps "" i] at h1
    simpa [contextAtStep, processPromptChain, String.empty_append, pairRender] using h1
  · simp [wrap, hc]

theorem render_and_wrap_amended_witness :
    ("c" : String) ≠ "" ∧ wrap "c" "p" = wrapTemplate "c" "p" :=
  ⟨by decide, (render_and_wrap_amended gwConstA ["q"] 0 "c" "p" (by decide)).2.2.2⟩

/-- C4: if the gateway call fails with `e` on step `k` of a chain with at
least `k + 2` sub-queries, the run still produces one record per sub-query,
record `k`'s response is the error-marked string `"Error: " ++ e`, and the
prompt built for step `k + 1` contains that error-marked text as the
`"A:"` line rendered for step `k`; no failure aborts the remaining steps. -/
theorem chain_error_isolation (g : Gateway) (ps : List String) (k : Nat) (e : String)
    (hk : k + 1 < ps.length)
    (herr : g "gpt-4o-mini" (stepPrompt g ps k) 500 = Except.error e) :
    (processPromptChain g ps).length = ps.length ∧
    (processPromptChain g ps).getD k ("", "") = (ps.getD k "", "Error: " ++ e) ∧
    strHasSub (stepPrompt g ps (k + 1)) ("\nA: " ++ (("Error: " ++ e) ++ "\n")) := by
  have hklt : k < ps.length := Nat.lt_of_succ_lt hk
  have hresp : getAiResponse g (stepPrompt g ps k) "gpt-4o-mini" = "Error: " ++ e := by
    unfold getAiResponse
    rw [herr]
  have hsp : wrap (ctxFrom g "" (ps.take k)) (ps.getD k "") = stepPrompt g ps k := rfl
  refine ⟨?_, ?_, ?_⟩
  · have h := congrArg List.length (runFrom_map_fst g ps "")
    simpa using h
  · have h := runFrom_getD g ps "" k hklt
    rw [hsp, hresp] at h
    exact h
  · have hctx : contextAtStep g ps (k + 1) =
        contextAtStep g ps k ++ pairRender (ps.getD k "") ("Error: " ++ e) := by
      unfold contextAtStep
      rw [ctxFrom_take_succ g ps "" k hklt, hsp, hresp]
    have hne : contextAtStep g ps (k + 1) ≠ "" := by
      rw [hctx]
      exact append_pairRender_ne_empty _ _ _
    have hwrap : stepPrompt g ps (k + 1) =
        wrapTemplate (contextAtStep g ps (k + 1)) (ps.getD (k + 1) "") := by
      unfold stepPrompt wrap
      rw [if_neg hne]
    refine ⟨"\n            Given this context from previous responses: \n            " ++
        (contextAtStep g ps k ++ ("\nQ: " ++ ps.getD k "")),
      "\n            \n            Please address this follow-up question while considering the above context:\n            " ++
        (ps.getD (k + 1) "" ++ "\n            "), ?_⟩
    rw [hwrap, hctx]
    unfold wrapTemplate pairRender
    simp [strAppend_assoc]

/-- A gateway failing exactly on the prompt `"a"`. -/
def gwFail : Gateway := fun _ p _ => if p = "a" then Except.error "boom" else Except.ok "ok"

theorem chain_error_isolation_witness :
    0 + 1 < (["a", "b"] : List String).length ∧
    gwFail "gpt-4o-mini" (stepPrompt gwFail ["a", "b"] 0) 500 = Except.error "boom" ∧
    ((processPromptChain gwFail ["a", "b"]).length = (["a", "b"] : List String).length ∧
     (processPromptChain gwFail ["a", "b"]).getD 0 ("", "") =
       (["a", "b"].getD 0 "", "Error: " ++ "boom") ∧
     strHasSub (stepPrompt gwFail ["a", "b"] (0 + 1)) ("\nA: " ++ (("Error: " ++ "boom") ++ "\n"))) :=
  ⟨by decide, rfl, chain_error_isolation gwFail ["a", "b"] 0 "boom" (by decide) rfl⟩

theorem charFindIdx_append (c : Char) (l₁ l₂ : List Char) (h : c ∉ l₁) :
    charFindIdx c (l₁ ++ c :: l₂) = some l₁.length := by
  induction l₁ with
  | nil => simp [charFindIdx]
  | cons x xs ih =>
    have hx : ¬ (x = c) := fun hxc => h (hxc ▸ List.mem_cons_self x xs)
    have hxs : c ∉ xs := fun hm => h (List.mem_cons_of_mem x hm)
    simp [charFindIdx, hx, ih hxs]

theorem charRfindIdx_eq_none (c : Char) (l : List Char) (h : c ∉ l) :
    charRfindIdx c l = none := by
  induction l with
  | nil => rfl
  | cons x xs ih =>
    have hx : ¬ (x = c) := fun hxc => h (hxc ▸ List.mem_cons_self x xs)
    have hxs : c ∉ xs := fun hm => h (List.mem_cons_of_mem x hm)
    simp [charRfindIdx, ih hxs, hx]

theorem charRfindIdx_append (c : Char) (l₁ l₂ : List Char) (h : c ∉ l₂) :
    charRfindIdx c (l₁ ++ c :: l₂) = some l₁.length := by
  induction l₁ with
  | nil => simp [charRfindIdx, charRfindIdx_eq_none c l₂ h]
  | cons x xs ih => simp [charRfindIdx, ih]

theorem extractBracket_of_shape (pre mid post : String)
    (hpre : '[' ∉ pre.data) (hpost : ']' ∉ post.data) :
    extractBracket (pre ++ ("[" ++ (mid ++ ("]" ++ post)))) = some ("[" ++ (mid ++ "]")) := by
  have hb1 : ("[" : String).data = ['['] := rfl
  have hb2 : ("]" : String).data = [']'] := rfl
  have hdata : (pre ++ ("[" ++ (mid ++ ("]" ++ post)))).data
      = pre.data ++ ('[' :: (mid.data ++ (']' :: post.data))) := by
    simp [String.data_append, hb1, hb2]
  have hfind : strFind (pre ++ ("[" ++ (mid ++ ("]" ++ post)))) '[' = some pre.data.length := by
    unfold strFind
    rw [hdata]
    exact charFindIdx_append '[' pre.data _ hpre
  have hsplit : pre.data ++ ('[' :: (mid.data ++ (']' :: post.data)))
      = (pre.data ++ '[' :: mid.data) ++ (']' :: post.data) := by
    simp
  have hrfind : strRfind (pre ++ ("[" ++ (mid ++ ("]" ++ post)))) ']'
      = some (pre.data.length + (1 + mid.data.length)) := by
    unfold strRfind
    rw [hdata, hsplit, charRfindIdx_append ']' _ post.data hpost]
    simp [List.length_append]
    omega
  have hslice : strSlice (pre ++ ("[" ++ (mid ++ ("]" ++ post)))) pre.data.length
      (pre.data.length + (1 + mid.data.length) + 1) = "[" ++ (mid ++ "]") := by
    unfold strSlice
    rw [hdata]
    rw [List.drop_left]
    have harith : pre.data.length + (1 + mid.data.length) + 1 - pre.data.length
        = mid.data.length + 2 := by omega
    rw [harith]
    have hshape : ('[' :: (mid.data ++ (']' :: post.data)))
        = (('[' :: mid.data) ++ [']']) ++ post.data := by
      simp
    rw [hshape, List.take_left' (by simp [List.length_append])]
    apply String.ext
    simp [String.data_append, hb1, hb2]
  unfold extractBracket
  rw [hfind, hrfind]
  simpa using hslice

/-- C6: decompose returns the singleton `[originalQuery]` whenever the
gateway call fails, the reply has no `[`, or the bracketed substring does
not parse; the failure surfaces only as a non-fatal `st.error` diagnostic
(I/O, outside the embedding), never as an exception. -/
theorem decompose_fallback_on_failure (g : Gateway) (parse : String → Option JsonVal)
    (q : String)
    (h : (∃ e, g "gpt-4o-mini" (decompositionPrompt q) 500 = Except.error e) ∨
         (∃ text, g "gpt-4o-mini" (decompositionPrompt q) 500 = Except.ok text ∧
           (extractBracket text = none ∨
            ∃ js, extractBracket text = some js ∧ parse js = none))) :
    aiPromptDecomposition g parse q = [JsonVal.str q] := by
  rcases h with ⟨e, he⟩ | ⟨text, hok, hin⟩
  · simp only [aiPromptDecomposition, he]
  · rcases hin with hnone | ⟨js, hex, hp⟩
    · simp only [aiPromptDecomposition, hok, hnone]
    · simp only [aiPromptDecomposition, hok, hex, hp]

/-- A gateway that always fails, as on a quota error. -/
def gwErr : Gateway := fun _ _ _ => Except.error "quota"

theorem decompose_fallback_on_failure_witness :
    (∃ e, gwErr "gpt-4o-mini" (decompositionPrompt "q") 500 = Except.error e) ∧
    aiPromptDecomposition gwErr (fun _ => none) "q" = [JsonVal.str "q"] :=
  ⟨⟨"quota", rfl⟩,
    decompose_fallback_on_failure gwErr (fun _ => none) "q" (Or.inl ⟨"quota", rfl⟩)⟩

/-- A gateway whose reply is the pure JSON text of an empty array. -/
def gwEmptyArr : Gateway := fun _ _ _ => Except.ok "[]"

/-- A parse stub behaving as `json.loads` on the input `"[]"`. -/
def parseEmptyArr : String → Option JsonVal :=
  fun s => if s = "[]" then some (JsonVal.arr []) else none

/-- C1 counterexample: when the backend reply is `"[]"`, whose bracketed
substring parses to the empty JSON list, decompose returns the empty list,
not the singleton containing the original query — so the result can be
empty. -/
theorem decompose_empty_list_cex :
    aiPromptDecomposition gwEmptyArr parseEmptyArr "q" = [] ∧
    aiPromptDecomposition gwEmptyArr parseEmptyArr "q" ≠ [JsonVal.str "q"] := by
  have h : aiPromptDecomposition gwEmptyArr parseEmptyArr "q" = [] := rfl
  refine ⟨h, ?_⟩
  rw [h]
  simp

/-- C1 amended: decompose never fails outward, but its result is not always
non-empty: when the bracketed substring parses to a JSON list, decompose
returns exactly that list — the empty list included — and a parsed non-list
value yields the empty list; the singleton `[originalQuery]` arises only
from gateway failure, a missing bracket, or a parse failure. -/
theorem decompose_totality_amended (g : Gateway) (parse : String → Option JsonVal)
    (q text js : String)
    (hok : g "gpt-4o-mini" (decompositionPrompt q) 500 = Except.ok text)
    (hex : extractBracket text = some js) :
    (∀ xs, parse js = some (JsonVal.arr xs) → aiPromptDecomposition g parse q = xs) ∧
    (parse js = none → aiPromptDecomposition g parse q = [JsonVal.str q]) ∧
    (∀ v, parse js = some v → (∀ xs, v ≠ JsonVal.arr xs) →
      aiPromptDecomposition g parse q = []) := by
  refine ⟨?_, ?_, ?_⟩
  · intro xs hp
    simp only [aiPromptDecomposition, hok, hex, hp]
  · intro hp
    simp only [aiPromptDecomposition, hok, hex, hp]
  · intro v hp hv
    cases v with
    | str s => simp only [aiPromptDecomposition, hok, hex, hp]
    | num n => simp only [aiPromptDecomposition, hok, hex, hp]
    | bool b => simp only [aiPromptDecomposition, hok, hex, hp]
    | null => simp only [aiPromptDecomposition, hok, hex, hp]
    | arr xs => exact absurd rfl (hv xs)
    | obj f => simp only [aiPromptDecomposition, hok, hex, hp]

theorem decompose_totality_amended_witness :
    gwEmptyArr "gpt-4o-mini" (decompositionPrompt "q") 500 = Except.ok "[]" ∧
    extractBracket "[]" = some "[]" ∧
    aiPromptDecomposition gwEmptyArr parseEmptyArr "q" = [] :=
  ⟨rfl, rfl,
    (decompose_totality_amended gwEmptyArr parseEmptyArr "q" "[]" "[]" rfl rfl).1 [] rfl⟩

/-- C5: for a reply that is prose, then a bracketed substring parsing to a
JSON array of one or more strings, then prose (no `[` before the array and
no `]` after it), decompose returns exactly that array of strings in
order. -/
theorem decompose_valid_json_array_exact (g : Gateway) (parse : String → Option JsonVal)
    (q pre mid post : String) (strs : List String)
    (hpre : '[' ∉ pre.data) (hpost : ']' ∉ post.data)
    (hok : g "gpt-4o-mini" (decompositionPrompt q) 500 =
      Except.ok (pre ++ ("[" ++ (mid ++ ("]" ++ post)))))
    (hparse : parse ("[" ++ (mid ++ "]")) = some (JsonVal.arr (strs.map JsonVal.str)))
    (hne : strs ≠ []) :
    aiPromptDecomposition g parse q = strs.map JsonVal.str := by
  have hex := extractBracket_of_shape pre mid post hpre hpost
  simp only [aiPromptDecomposition, hok, hex, hparse]

/-- A gateway whose reply surrounds a two-string JSON array with prose. -/
def gwPros : Gateway := fun _ _ _ => Except.ok "Sure! [\"a\", \"b\"] done."

/-- A parse stub behaving as `json.loads` on `"[\"a\", \"b\"]"`. -/
def parseAB : String → Option JsonVal :=
  fun s =>
    if s = "[\"a\", \"b\"]" then some (JsonVal.arr [JsonVal.str "a", JsonVal.str "b"])
    else none

theorem decompose_valid_json_array_exact_witness :
    '[' ∉ ("Sure! " : String).data ∧ ']' ∉ (" done." : String).data ∧
    (["a", "b"] : List String) ≠ [] ∧
    aiPromptDecomposition gwPros parseAB "q" = (["a", "b"] : List String).map JsonVal.str :=
  ⟨by decide, by decide, by decide,
    decompose_valid_json_array_exact gwPros parseAB "q" "Sure! " "\"a\", \"b\"" " done."
      ["a", "b"] (by decide) (by decide) rfl rfl (by decide)⟩

/-- C9: decompose does not validate element types: whatever list the
bracketed substring parses to, string elements or not, is returned
unchanged. -/
theorem decompose_passthrough_nonstring (g : Gateway) (parse : String → Option JsonVal)
    (q text js : String) (xs : List JsonVal)
    (hok : g "gpt-4o-mini" (decompositionPrompt q) 500 = Except.ok text)
    (hex : extractBracket text = some js)
    (hp : parse js = some (JsonVal.arr xs)) :
    aiPromptDecomposition g parse q = xs := by
  simp only [aiPromptDecomposition, hok, hex, hp]

/-- A gateway whose reply is a JSON array mixing a number, a nested list
and a null. -/
def gwMixed : Gateway := fun _ _ _ => Except.ok "[1, [\"x\"], null]"

/-- A parse stub behaving as `json.loads` on `"[1, [\"x\"], null]"`. -/
def parseMixed : String → Option JsonVal :=
  fun s =>
    if s = "[1, [\"x\"], null]" then
      some (JsonVal.arr [JsonVal.num 1, JsonVal.arr [JsonVal.str "x"], JsonVal.null])
    else none

theorem decompose_passthrough_nonstring_witness :
    extractBracket "[1, [\"x\"], null]" = some "[1, [\"x\"], null]" ∧
    aiPromptDecomposition gwMixed parseMixed "q" =
      [JsonVal.num 1, JsonVal.arr [JsonVal.str "x"], JsonVal.null] :=
  ⟨rfl,
    decompose_passthrough_nonstring gwMixed parseMixed "q" "[1, [\"x\"], null]"
      "[1, [\"x\"], null]" [JsonVal.num 1, JsonVal.arr [JsonVal.str "x"], JsonVal.null]
      rfl rfl rfl⟩
